import Mathlib

/-!
Shallow embedding of `app/controllers/task.js` of the GeofenceServer
repository, together with proofs checking the natural-language
specification against it.

The controller talks to a relational store through Sequelize.  We model the
store (`DB`) as plain Lean data: a list of task rows, a total balance map
for users (the `ensureUserExists` middleware resolves the current user
before a handler runs, so user existence is not at issue in any claim), a
list of TaskResponse rows, a count of TaskActionResponse rows, the
append-only change log, and a server clock used to stamp change-log
entries (`createdAt`), which therefore appear in non-decreasing time order.

Handlers that are single reads or writes are modelled as pure functions on
`DB`.  The `POST /db/task-respond` handler performs a sequence of separate
store operations with no enclosing transaction; it is modelled as a small
state machine (`respondStep`) whose atomic steps are the individual
Sequelize calls of the handler, so that interleavings of two concurrent
requests can be examined, and whose sequential execution
(`respondToTask`) is the one-request-at-a-time semantics.
-/

namespace GeofenceServer

/-- A JavaScript number as the controller uses one (a currency amount, a
coordinate): modelled as an exact integer.  Every arithmetic operation the
controller performs on these values (one addition or subtraction per
transfer, one decrement of a counter) is exact on IEEE doubles at these
magnitudes, so exact integers embed the arithmetic faithfully. -/
abbrev JsNum := Int

/-- Change-log status values (`CONSTANTS.HELPERS.CHANGE_LOG_STATUS_XXXXX`). -/
inductive ChangeStatus where
  | created
  | updated
  | deleted
deriving DecidableEq, Repr

/-- A row of the ChangeLog table: task id, status, and the server-assigned
`createdAt` timestamp. -/
structure ChangeLogEntry where
  taskId : Nat
  status : ChangeStatus
  createdAt : Nat
deriving DecidableEq, Repr

/-- A Task row: id, owner (`userId`), cost per response, and the
remaining-answers counter `answersLeft`.  (Name, expiry, refresh rate,
location and actions are carried by the real row but are not read by any
of the control flow the claims are about.) -/
structure Task where
  id : Nat
  userId : Nat
  cost : JsNum
  answersLeft : Int
deriving DecidableEq, Repr

/-- A TaskResponse row: responding user and the task answered. -/
structure TaskResponse where
  userId : Nat
  taskId : Nat
deriving DecidableEq, Repr

/-- The store state seen by the controller. -/
structure DB where
  tasks : List Task
  balances : Nat → JsNum
  responses : List TaskResponse
  actionResponses : Nat
  changeLog : List ChangeLogEntry
  now : Nat
  nextTaskId : Nat

/-- The empty store. -/
def emptyDB : DB :=
  { tasks := [], balances := fun _ => 0, responses := [], actionResponses := 0,
    changeLog := [], now := 0, nextTaskId := 0 }

/-- `findOne({where: {id: taskId}})` on the Task table. -/
def getTask (db : DB) (tid : Nat) : Option Task :=
  db.tasks.find? (fun t => t.id = tid)

/-- `createChangeLogPromise(taskId, status)`: inserts a ChangeLog row with a
server-assigned creation timestamp. -/
def appendLog (db : DB) (tid : Nat) (st : ChangeStatus) : DB :=
  { db with changeLog := db.changeLog ++ [⟨tid, st, db.now⟩], now := db.now + 1 }

/-- `task.update({answersLeft: v})`: writes the counter of every row whose
id matches. -/
def setAnswersLeft (db : DB) (tid : Nat) (v : Int) : DB :=
  { db with tasks := db.tasks.map (fun t => if t.id = tid then { t with answersLeft := v } else t) }

/-! ### GET /db/task-sync -/

/-- `findAll({where: {createdAt: {gt: new Date(1 * lastUpdated)}}})` on the
ChangeLog table: the rows strictly newer than the given time, in table
order (which is append order). -/
def entriesSince (log : List ChangeLogEntry) (t : Nat) : List ChangeLogEntry :=
  log.filter (fun e => t < e.createdAt)

/-- The JSON body answered by the sync handler. -/
structure SyncResult where
  lastUpdated : Nat
  changes : List (Nat × ChangeStatus)
deriving DecidableEq, Repr

/-- The `GET /db/task-sync` handler: starts from `{lastUpdated: 0, changes: []}`
and fills both fields only when at least one newer entry exists, taking
`lastUpdated` from the last element of the result set. -/
def taskSync (log : List ChangeLogEntry) (lastUpdated : Nat) : SyncResult :=
  let allChanges := entriesSince log lastUpdated
  if allChanges.length > 0 then
    { lastUpdated := (allChanges.getLast?.map ChangeLogEntry.createdAt).getD 0,
      changes := allChanges.map (fun e => (e.taskId, e.status)) }
  else
    { lastUpdated := 0, changes := [] }

/-! ### GET /db/task-fetch -/

/-- The handler's `taskId` query parameter after its parse step: `none` when
the parameter is absent (or falsy), `some none` when `JSON.parse` threw,
`some (some ids)` when it parsed to an id array. -/
def fetchParamIds : Option (Option (List Nat)) → List Nat
  | none => []
  | some none => []
  | some (some ids) => ids

/-- The `GET /db/task-fetch` handler: `findAll({where: {id: ids}})`. -/
def taskFetch (tasks : List Task) (taskIdParam : Option (Option (List Nat))) : List Task :=
  tasks.filter (fun t => (fetchParamIds taskIdParam).contains t.id)

/-! ### POST /db/task-add -/

/-- Truthiness of `parseFloat(x)` in the handler's guards: the input is
modelled as its parse result (`none` for NaN); `0` is falsy in JS, so a
field that parses to `0` fails the guard exactly like a non-numeric one. -/
def jsTruthyNum : Option JsNum → Bool
  | none => false
  | some q => q != 0

/-- Outcome of the `POST /db/task-add` handler. -/
inductive CreateResult where
  | validationError (msg : String)
  | ok (createdTaskId : Nat)
deriving DecidableEq, Repr

/-- Whether a create outcome is one of the two `next(new Error(...))`
rejections of the handler's guards. -/
def CreateResult.isValidationError : CreateResult → Bool
  | validationError _ => true
  | ok _ => false

/-- The `POST /db/task-add` handler: the two `parseFloat` guards run before
any store access; on success the Task row (with the caller-supplied
`answersLeft`, unvalidated) is created and a `CREATED` change-log entry is
appended. -/
def taskAdd (db : DB) (ownerId : Nat) (cost lat lng : Option JsNum) (answersLeft : Int) :
    CreateResult × DB :=
  if !jsTruthyNum cost then
    (.validationError "Cost must be a number (in dollars).", db)
  else if !jsTruthyNum lat || !jsTruthyNum lng then
    (.validationError "Lat and Lng must both be numbers.", db)
  else
    let t : Task := { id := db.nextTaskId, userId := ownerId, cost := cost.getD 0,
                      answersLeft := answersLeft }
    (.ok db.nextTaskId,
      appendLog { db with tasks := db.tasks ++ [t], nextTaskId := db.nextTaskId + 1 }
        db.nextTaskId .created)

/-! ### GET /db/task-delete -/

/-- The two store effects of the delete handler. -/
inductive DelAct where
  | destroy
  | append
deriving DecidableEq, Repr

/-- One store effect of the delete handler: `destroy({where: {id: taskId}})`
on the Task table, or the ChangeLog insert of a `DELETED` entry. -/
def delAct (tid : Nat) : DelAct → DB → DB
  | .destroy, db => { db with tasks := db.tasks.filter (fun t => !(t.id = tid)) }
  | .append, db => appendLog db tid .deleted

/-- Run a sequence of delete effects. -/
def runDelActs (tid : Nat) (acts : List DelAct) (db : DB) : DB :=
  acts.foldl (fun d a => delAct tid a d) db

/-- The orders in which the delete handler's two effects can commit.  The
handler writes `destroy(...).then(createChangeLogPromise(taskId, DELETED))`:
the change-log insert is invoked at call time (the already-built promise is
passed to `.then`, which ignores a non-function argument), so it runs
concurrently with the destroy and may commit before or after it. -/
def deleteSchedules : List (List DelAct) := [[.destroy, .append], [.append, .destroy]]

/-- The `GET /db/task-delete/:taskId` handler's overall state change (both
effects commute, so every schedule in `deleteSchedules` reaches this same
final store).  The handler then redirects — reporting success — whether or
not any row was destroyed. -/
def taskDelete (db : DB) (tid : Nat) : DB :=
  runDelActs tid [.destroy, .append] db

/-! ### POST /db/task-respond

The handler runs the following Sequelize calls in order, with no enclosing
transaction; each is one atomic step of the machine below, identified by a
program counter:

* pc 0 — `ensureUserExists` middleware: reads the responding user's row
  (its `balance` is the value later used by `user.update`).
* pc 1 — `TASK.findOne({where: {id: taskId}, include: [USER, ...]})`:
  reads the task row and its owner's balance.  When no row matches, the
  handler dereferences `null` (`task.answersLeft`) and the resulting
  `TypeError` is an unhandled rejection: no response is sent and nothing
  else runs.
* pc 2 — `if (task.answersLeft === 0) return next(...)`, then
  `task.acceptingNewResponses(cb)` on the fetched instance.
* pc 3 — `task.user.update({balance: task.user.balance - task.cost})`.
* pc 4 — `user.update({balance: user.balance + task.cost})`.
* pc 5 — `task.update({answersLeft: task.answersLeft - 1})` — note all
  three writes use values snapshotted at pc 0/1.
* pc 6 — `TASK_RESPONSE.create(...)`; the machine takes a `fail` flag to
  examine the handler's `.catch(error => next(error))` path there.
* pc 7 — `TASK_ACTION_RESPONSE.bulkCreate(...)`.
* pc 8 — `createChangeLogPromise(taskId, UPDATED)`.
* pc 9 — `res.json({..., balance: user.balance})` (the instance balance
  written at pc 4).
-/

/-- Modelled from the spec: `task.acceptingNewResponses` lives in
`app/models` (not under `src/`); per §4.3 the Quota Gate decision "fails
with `TaskExhausted` when `answersLeft == 0` at decision time", so the
instance method accepts exactly when the fetched instance's counter is
nonzero.  The durable decrement is performed by the caller (pc 5), not by
this check. -/
def acceptingNewResponses (answersLeft : Int) : Bool :=
  answersLeft != 0

/-- Outcome of one `POST /db/task-respond` request. -/
inductive RResult where
  /-- `res.json({error: "", result: true, balance})`. -/
  | ok (balance : JsNum)
  /-- `next(new Error("Task is already completed."))`. -/
  | taskCompleted
  /-- `acceptingNewResponses` reported an error. -/
  | gateRejected
  /-- a storage error surfaced through `.catch(error => next(error))`. -/
  | storageError
  /-- unhandled `TypeError` (the task `findOne` returned `null`); no
  response is sent. -/
  | jsError
deriving DecidableEq, Repr

/-- The per-request state of one respond invocation: its inputs, program
counter, the values snapshotted from the store, and its outcome. -/
structure Thread where
  userId : Nat
  taskId : Nat
  fail : Bool
  pc : Nat
  snapUserBal : JsNum
  snapAnswersLeft : Int
  snapCost : JsNum
  snapOwnerId : Nat
  snapOwnerBal : JsNum
  result : Option RResult
deriving Repr

/-- A fresh respond invocation. -/
def initThread (u tid : Nat) (fail : Bool) : Thread :=
  { userId := u, taskId := tid, fail := fail, pc := 0, snapUserBal := 0,
    snapAnswersLeft := 0, snapCost := 0, snapOwnerId := 0, snapOwnerBal := 0,
    result := none }

/-- One atomic step of the respond handler (see the section comment for the
line-by-line correspondence). -/
def respondStep (th : Thread) (db : DB) : Thread × DB :=
  if th.result.isSome then (th, db) else
  match th.pc with
  | 0 =>
    ({ th with snapUserBal := db.balances th.userId, pc := 1 }, db)
  | 1 =>
    match getTask db th.taskId with
    | none => ({ th with result := some .jsError }, db)
    | some t =>
      ({ th with snapAnswersLeft := t.answersLeft, snapCost := t.cost,
                 snapOwnerId := t.userId, snapOwnerBal := db.balances t.userId, pc := 2 }, db)
  | 2 =>
    if th.snapAnswersLeft = 0 then ({ th with result := some .taskCompleted }, db)
    else if acceptingNewResponses th.snapAnswersLeft then ({ th with pc := 3 }, db)
    else ({ th with result := some .gateRejected }, db)
  | 3 =>
    ({ th with pc := 4 },
     { db with balances := fun x =>
         if x = th.snapOwnerId then th.snapOwnerBal - th.snapCost else db.balances x })
  | 4 =>
    ({ th with pc := 5 },
     { db with balances := fun x =>
         if x = th.userId then th.snapUserBal + th.snapCost else db.balances x })
  | 5 =>
    ({ th with pc := 6 }, setAnswersLeft db th.taskId (th.snapAnswersLeft - 1))
  | 6 =>
    if th.fail then ({ th with result := some .storageError }, db)
    else ({ th with pc := 7 },
          { db with responses := db.responses ++ [⟨th.userId, th.taskId⟩] })
  | 7 =>
    ({ th with pc := 8 }, { db with actionResponses := db.actionResponses + 1 })
  | 8 =>
    ({ th with pc := 9 }, appendLog db th.taskId .updated)
  | _ =>
    ({ th with result := some (.ok (th.snapUserBal + th.snapCost)) }, db)

/-- Run one respond invocation for `fuel` steps. -/
def runRespond : Nat → Thread → DB → Thread × DB
  | 0, th, db => (th, db)
  | fuel + 1, th, db =>
    let s := respondStep th db
    runRespond fuel s.1 s.2

/-- The `POST /db/task-respond` handler executed alone (one request at a
time): run the machine to completion. -/
def respondToTask (db : DB) (u tid : Nat) (fail : Bool) : Thread × DB :=
  runRespond 12 (initThread u tid fail) db

/-- Interleave two respond invocations under an explicit schedule: `true`
steps the first request, `false` the second. -/
def runRespond2 (sched : List Bool) (thA thB : Thread) (db : DB) :
    Thread × Thread × DB :=
  match sched with
  | [] => (thA, thB, db)
  | b :: rest =>
    if b then
      let s := respondStep thA db
      runRespond2 rest s.1 thB s.2
    else
      let s := respondStep thB db
      runRespond2 rest thA s.1 s.2

/-! ### Sequential operation traces

`Op` lists the controller's operations; `applyOp` is the store change each
causes when requests are handled one at a time (`fetch`, `sync` and
`responseFetch` are read-only handlers and leave the store unchanged). -/

/-- One inbound request. -/
inductive Op where
  | create (ownerId : Nat) (cost lat lng : Option JsNum) (answersLeft : Int)
  | respond (userId taskId : Nat) (fail : Bool)
  | delete (taskId : Nat)
  | fetch (p : Option (Option (List Nat)))
  | sync (t : Nat)

/-- The store change of one sequentially-executed request. -/
def applyOp (db : DB) : Op → DB
  | .create ownerId cost lat lng answersLeft => (taskAdd db ownerId cost lat lng answersLeft).2
  | .respond u tid fail => (respondToTask db u tid fail).2
  | .delete tid => taskDelete db tid
  | .fetch _ => db
  | .sync _ => db

/-- Run a sequence of requests from a starting store. -/
def applyOps (db : DB) (ops : List Op) : DB :=
  ops.foldl applyOp db

/-- A create request that supplies a non-negative `answersLeft` (the
handler itself never validates this field). -/
def wfOp : Op → Bool
  | .create _ _ _ _ answersLeft => decide (0 ≤ answersLeft)
  | _ => true

/-! ### Concrete stores and schedules used in the claim analyses -/

/-- All task counters in the store are non-negative. -/
def NonnegAnswers (db : DB) : Prop := ∀ t ∈ db.tasks, 0 ≤ t.answersLeft

/-- A store with one task (id 1) and none with id 42, used to examine the
delete handler. -/
def c7DB : DB :=
  { tasks := [⟨1, 0, 5, 2⟩], balances := fun _ => 0, responses := [],
    actionResponses := 0, changeLog := [], now := 3, nextTaskId := 2 }

/-- A store with no tasks at all, used to examine the respond handler's
missing-task path. -/
def c8DB : DB :=
  { tasks := [], balances := fun _ => 9, responses := [], actionResponses := 0,
    changeLog := [], now := 0, nextTaskId := 0 }

/-- A store with one live task (id 1, two answers left), used to examine
the delete handler's commit order. -/
def c9DB : DB :=
  { tasks := [⟨1, 0, 5, 2⟩], balances := fun _ => 0, responses := [],
    actionResponses := 0, changeLog := [], now := 1, nextTaskId := 2 }

/-- A store with one task (id 1, owner 0, cost 5, one answer left) and
funded balances, used to examine the respond handler's failure atomicity. -/
def c2DB : DB :=
  { tasks := [⟨1, 0, 5, 1⟩],
    balances := fun u => if u = 0 then 100 else if u = 1 then 10 else 0,
    responses := [], actionResponses := 0, changeLog := [], now := 0, nextTaskId := 2 }

/-- A store with one task (id 1, owner 0, cost 5, exactly one answer
left), used to examine two concurrent respond requests. -/
def c1DB : DB :=
  { tasks := [⟨1, 0, 5, 1⟩],
    balances := fun u => if u = 0 then 100 else if u = 1 then 10 else if u = 2 then 20 else 0,
    responses := [], actionResponses := 0, changeLog := [], now := 0, nextTaskId := 2 }

/-- The interleaving in which request A (user 1) and request B (user 2)
both read the task — middleware read, `findOne`, guard — before either
issues a write, then each completes its writes. -/
def c1Schedule : List Bool :=
  [true, true, true, false, false, false, true, true, true, true, true, true, true,
   false, false, false, false, false, false, false]

/-- A store with one task (id 3, owner 2, cost 7), used to examine the
transfer arithmetic and its coupling to the TaskResponse insert. -/
def c4DB : DB :=
  { tasks := [⟨3, 2, 7, 4⟩],
    balances := fun u => if u = 2 then 50 else if u = 5 then 8 else 0,
    responses := [], actionResponses := 0, changeLog := [], now := 9, nextTaskId := 4 }

/-- A concrete request sequence: one funded task and one response. -/
def c3Ops : List Op :=
  [.create 0 (some 5) (some 1) (some 1) 1, .respond 1 0 false]

/-! ### Characterization of the sequentially-executed respond handler -/

/-- When the `findOne` returns `null` the handler crashes on
`task.answersLeft` with an unhandled `TypeError` before touching the
store. -/
theorem respond_no_task {db : DB} {u tid : Nat} {fl : Bool}
    (h : getTask db tid = none) :
    (respondToTask db u tid fl).1.result = some .jsError ∧
    (respondToTask db u tid fl).2 = db := by
  simp [respondToTask, runRespond, respondStep, initThread, h]

/-- The fast-path rejection: a counter that is exactly `0` stops the
handler before any write. -/
theorem respond_exhausted {db : DB} {u tid : Nat} {fl : Bool} {t : Task}
    (h : getTask db tid = some t) (h0 : t.answersLeft = 0) :
    (respondToTask db u tid fl).1.result = some .taskCompleted ∧
    (respondToTask db u tid fl).2 = db := by
  simp [respondToTask, runRespond, respondStep, initThread, h, h0]

/-- When the `TASK_RESPONSE.create` fails, the balance writes and the
counter decrement have already been issued and are not rolled back, while
no TaskResponse row and no change-log entry exist. -/
theorem respond_storage_fail {db : DB} {u tid : Nat} {t : Task}
    (h : getTask db tid = some t) (h0 : t.answersLeft ≠ 0) :
    (respondToTask db u tid true).1.result = some .storageError ∧
    (∀ x, (respondToTask db u tid true).2.balances x =
      if x = u then db.balances u + t.cost
      else if x = t.userId then db.balances t.userId - t.cost
      else db.balances x) ∧
    (respondToTask db u tid true).2.tasks =
      db.tasks.map
        (fun t2 => if t2.id = tid then { t2 with answersLeft := t.answersLeft - 1 } else t2) ∧
    (respondToTask db u tid true).2.responses = db.responses ∧
    (respondToTask db u tid true).2.changeLog = db.changeLog := by
  simp [respondToTask, runRespond, respondStep, initThread, h, h0, acceptingNewResponses,
    setAnswersLeft]

/-- The fully successful path: balances written from the values
snapshotted before any write, counter decremented, TaskResponse row and
`UPDATED` change-log entry appended, and the responder's updated balance
returned. -/
theorem respond_ok {db : DB} {u tid : Nat} {t : Task}
    (h : getTask db tid = some t) (h0 : t.answersLeft ≠ 0) :
    (respondToTask db u tid false).1.result = some (.ok (db.balances u + t.cost)) ∧
    (∀ x, (respondToTask db u tid false).2.balances x =
      if x = u then db.balances u + t.cost
      else if x = t.userId then db.balances t.userId - t.cost
      else db.balances x) ∧
    (respondToTask db u tid false).2.tasks =
      db.tasks.map
        (fun t2 => if t2.id = tid then { t2 with answersLeft := t.answersLeft - 1 } else t2) ∧
    (respondToTask db u tid false).2.responses = db.responses ++ [⟨u, tid⟩] ∧
    (respondToTask db u tid false).2.changeLog = db.changeLog ++ [⟨tid, .updated, db.now⟩] := by
  simp [respondToTask, runRespond, respondStep, initThread, h, h0, acceptingNewResponses,
    setAnswersLeft, appendLog]

/-! ### Task-lookup lemmas for the mutating operations -/

theorem find?_map_update (l : List Task) (tid0 tid : Nat) (v : Int) :
    (l.map (fun t => if t.id = tid0 then { t with answersLeft := v } else t)).find?
        (fun t => t.id = tid) =
      (l.find? (fun t => t.id = tid)).map
        (fun t => if t.id = tid0 then { t with answersLeft := v } else t) := by
  induction l with
  | nil => rfl
  | cons a l ih =>
    by_cases ha : a.id = tid
    · by_cases ha0 : a.id = tid0
      · have h01 : tid = tid0 := by omega
        simp [List.find?_cons, ha, ha0, h01]
      · have h01 : ¬(tid = tid0) := by omega
        simp [List.find?_cons, ha, ha0, h01]
    · by_cases ha0 : a.id = tid0
      · have h01 : ¬(tid0 = tid) := by omega
        simp [List.find?_cons, ha, ha0, h01, ih]
      · simp [List.find?_cons, ha, ha0, ih]

/-- `setAnswersLeft` only rewrites the counter of matching rows. -/
theorem getTask_setAnswersLeft (db : DB) (tid0 tid : Nat) (v : Int) :
    getTask (setAnswersLeft db tid0 v) tid =
      (getTask db tid).map
        (fun t => if t.id = tid0 then { t with answersLeft := v } else t) := by
  unfold getTask setAnswersLeft
  exact find?_map_update db.tasks tid0 tid v

theorem find?_filter_ne (l : List Task) (tid0 tid : Nat) (h : tid ≠ tid0) :
    (l.filter (fun t => !(t.id = tid0))).find? (fun t => t.id = tid) =
      l.find? (fun t => t.id = tid) := by
  induction l with
  | nil => rfl
  | cons a l ih =>
    by_cases ha0 : a.id = tid0
    · have ha : ¬(a.id = tid) := by omega
      have h01 : ¬(tid0 = tid) := fun hh => h hh.symm
      simp [List.filter_cons, ha0, List.find?_cons, ha, h01, ih]
    · by_cases ha : a.id = tid
      · simp [List.filter_cons, ha0, List.find?_cons, ha, h, ih]
      · simp [List.filter_cons, ha0, List.find?_cons, ha, ih]

/-- Destroying one task id leaves every other lookup unchanged. -/
theorem getTask_destroy (db : DB) (tid0 tid : Nat) :
    getTask (delAct tid0 .destroy db) tid =
      if tid = tid0 then none else getTask db tid := by
  unfold getTask delAct
  by_cases h : tid = tid0
  · subst h
    rw [if_pos rfl]
    apply List.find?_eq_none.mpr
    intro x hx
    have := List.of_mem_filter hx
    simpa using this
  · rw [if_neg h]
    exact find?_filter_ne db.tasks tid0 tid h

/-- Appending rows leaves an already-successful lookup unchanged. -/
theorem getTask_append_of_found (db : DB) (ts : List Task) (tid : Nat) (t : Task)
    (h : getTask db tid = some t) :
    (db.tasks ++ ts).find? (fun t2 => t2.id = tid) = some t := by
  unfold getTask at h
  rw [List.find?_append, h]
  rfl

/-- The create handler either leaves the store untouched (a guard fired) or
appends the new Task row and a `CREATED` change-log entry. -/
theorem taskAdd_db_cases (db : DB) (o : Nat) (c la ln : Option JsNum) (al : Int) :
    (taskAdd db o c la ln al).2 = db ∨
    ((taskAdd db o c la ln al).2.tasks =
        db.tasks ++ [{ id := db.nextTaskId, userId := o, cost := c.getD 0, answersLeft := al }] ∧
     (taskAdd db o c la ln al).2.changeLog =
        db.changeLog ++ [⟨db.nextTaskId, .created, db.now⟩]) := by
  unfold taskAdd
  split
  · exact Or.inl rfl
  · split
    · exact Or.inl rfl
    · right
      constructor <;> simp [appendLog]

/-- The respond handler either leaves the store untouched, or found a task
with a nonzero counter and rewrote the Task table as a counter decrement. -/
theorem respond_db_cases (db : DB) (u tid : Nat) (fl : Bool) :
    (respondToTask db u tid fl).2 = db ∨
    ∃ s, getTask db tid = some s ∧ s.answersLeft ≠ 0 ∧
      (respondToTask db u tid fl).2.tasks =
        db.tasks.map
          (fun t2 => if t2.id = tid then { t2 with answersLeft := s.answersLeft - 1 } else t2) := by
  rcases h : getTask db tid with _ | s
  · exact Or.inl (respond_no_task h).2
  · by_cases h0 : s.answersLeft = 0
    · exact Or.inl (respond_exhausted h h0).2
    · right
      refine ⟨s, rfl, h0, ?_⟩
      cases fl
      · exact (respond_ok h h0).2.2.1
      · exact (respond_storage_fail h h0).2.2.1

theorem taskDelete_tasks (db : DB) (tid : Nat) :
    (taskDelete db tid).tasks = db.tasks.filter (fun t => !(t.id = tid)) := by
  simp [taskDelete, runDelActs, delAct, appendLog]

theorem taskDelete_changeLog (db : DB) (tid : Nat) :
    (taskDelete db tid).changeLog = db.changeLog ++ [⟨tid, .deleted, db.now⟩] := by
  simp [taskDelete, runDelActs, delAct, appendLog]

/-- One sequentially-executed request preserves non-negative counters,
provided any create supplies a non-negative initial counter. -/
theorem applyOp_nonneg {db : DB} {op : Op} (hwf : wfOp op = true)
    (hinv : NonnegAnswers db) : NonnegAnswers (applyOp db op) := by
  cases op with
  | create o c la ln al =>
    have hal : 0 ≤ al := by simpa [wfOp] using hwf
    rcases taskAdd_db_cases db o c la ln al with heq | ⟨htasks, _⟩
    · simpa [applyOp, heq] using hinv
    · intro t ht
      simp only [applyOp] at ht
      rw [htasks] at ht
      rcases List.mem_append.mp ht with ht | ht
      · exact hinv t ht
      · simp at ht
        rw [ht]
        exact hal
  | respond u tid fl =>
    rcases respond_db_cases db u tid fl with heq | ⟨s, hs, hs0, htasks⟩
    · simpa [applyOp, heq] using hinv
    · intro t ht
      simp only [applyOp] at ht
      rw [htasks] at ht
      rcases List.mem_map.mp ht with ⟨t0, ht0, rfl⟩
      have hsmem : s ∈ db.tasks := List.mem_of_find?_eq_some hs
      have hsnn : 0 ≤ s.answersLeft := hinv s hsmem
      by_cases hid : t0.id = tid
      · simp only [hid, if_pos rfl]
        have : 1 ≤ s.answersLeft := by omega
        simpa using by omega
      · simp only [if_neg hid]
        exact hinv t0 ht0
  | delete tid =>
    intro t ht
    simp only [applyOp] at ht
    rw [taskDelete_tasks] at ht
    exact hinv t (List.mem_of_mem_filter ht)
  | fetch p => exact hinv
  | sync ts => exact hinv

theorem getTask_appendLog (db : DB) (a : Nat) (s : ChangeStatus) (tid : Nat) :
    getTask (appendLog db a s) tid = getTask db tid := rfl

theorem getTask_delAppend (db : DB) (a tid : Nat) :
    getTask (delAct a .append db) tid = getTask db tid := rfl

/-- One sequentially-executed request never increases the counter of a
task that exists before and after it. -/
theorem applyOp_answersLeft_mono {db : DB} {op : Op} {tid : Nat} {t t' : Task}
    (h : getTask db tid = some t) (h' : getTask (applyOp db op) tid = some t') :
    t'.answersLeft ≤ t.answersLeft := by
  cases op with
  | create o c la ln al =>
    rcases taskAdd_db_cases db o c la ln al with heq | ⟨htasks, _⟩
    · simp only [applyOp, heq] at h'
      rw [h] at h'
      cases h'
      exact le_refl _
    · simp only [applyOp] at h'
      unfold getTask at h'
      rw [htasks, getTask_append_of_found db _ tid t h] at h'
      cases h'
      exact le_refl _
  | respond u tid2 fl =>
    rcases respond_db_cases db u tid2 fl with heq | ⟨s, hs, hs0, htasks⟩
    · simp only [applyOp, heq] at h'
      rw [h] at h'
      cases h'
      exact le_refl _
    · simp only [applyOp] at h'
      unfold getTask at h'
      rw [htasks, find?_map_update] at h'
      have hfind : getTask db tid = some t := h
      unfold getTask at hfind
      rw [hfind] at h'
      simp only [Option.map_some'] at h'
      by_cases hid : t.id = tid2
      · rw [if_pos hid] at h'
        cases h'
        have : tid = tid2 := by
          have := List.find?_some hfind
          simp at this
          omega
        subst this
        rw [hs] at h
        cases h
        simp
      · rw [if_neg hid] at h'
        cases h'
        exact le_refl _
  | delete tid2 =>
    simp only [applyOp] at h'
    by_cases hdel : tid = tid2
    · subst hdel
      unfold taskDelete runDelActs at h'
      simp only [List.foldl] at h'
      rw [getTask_delAppend, getTask_destroy, if_pos rfl] at h'
      cases h'
    · unfold taskDelete runDelActs at h'
      simp only [List.foldl] at h'
      rw [getTask_delAppend, getTask_destroy, if_neg hdel, h] at h'
      cases h'
      exact le_refl _
  | fetch p =>
    simp only [applyOp] at h'
    rw [h] at h'
    cases h'
    exact le_refl _
  | sync ts =>
    simp only [applyOp] at h'
    rw [h] at h'
    cases h'
    exact le_refl _

/-! ## Claims -/

/-- Claim C10: a fetch request whose `taskId` parameter is absent or fails
to parse as JSON is treated as an empty id set and yields an empty list of
task aggregates, not an error. -/
theorem c10_fetch_absent_or_unparseable (tasks : List Task) :
    taskFetch tasks none = [] ∧ taskFetch tasks (some none) = [] := by
  constructor <;>
    · apply List.filter_eq_nil_iff.mpr
      intro t _
      simp [fetchParamIds]

/-- Claim C6 counterexample: a negative cost passes the guard (the claim
requires rejection of every non-positive cost), and a zero latitude is
rejected (the claim requires acceptance of every numeric lat/lng):
`parseFloat` truthiness conflates 0 with NaN and accepts negatives. -/
theorem c6_counterexample :
    (taskAdd emptyDB 0 (some (-5)) (some 1) (some 1) 3).1 = .ok 0 ∧
    (taskAdd emptyDB 7 (some 5) (some 0) (some 1) 3).1 =
      .validationError "Lat and Lng must both be numbers." := by
  constructor <;> rfl

/-- Claim C6 (amended): the create handler fails with a validation error —
before any storage mutation — iff `parseFloat` of cost is NaN or 0, or
`parseFloat` of lat or lng is NaN or 0; for all other inputs it creates
the task aggregate and appends a CREATED change-log entry. -/
theorem c6_amended (db : DB) (o : Nat) (c la ln : Option JsNum) (al : Int) :
    ((taskAdd db o c la ln al).1.isValidationError = true ↔
      (jsTruthyNum c = false ∨ jsTruthyNum la = false ∨ jsTruthyNum ln = false)) ∧
    ((taskAdd db o c la ln al).1.isValidationError = true →
      (taskAdd db o c la ln al).2 = db) ∧
    ((taskAdd db o c la ln al).1.isValidationError = false →
      (taskAdd db o c la ln al).1 = .ok db.nextTaskId ∧
      (taskAdd db o c la ln al).2.tasks =
        db.tasks ++ [{ id := db.nextTaskId, userId := o, cost := c.getD 0,
                       answersLeft := al }] ∧
      (taskAdd db o c la ln al).2.changeLog =
        db.changeLog ++ [⟨db.nextTaskId, .created, db.now⟩]) := by
  unfold taskAdd
  cases hc : jsTruthyNum c <;> cases hla : jsTruthyNum la <;> cases hln : jsTruthyNum ln <;>
    simp [CreateResult.isValidationError, appendLog, hc, hla, hln]

theorem c6_amended_witness :
    (taskAdd emptyDB 3 (some 5) (some 2) (some (-1)) 4).1.isValidationError = false ∧
    (taskAdd emptyDB 3 (some 5) (some 2) (some (-1)) 4).2.tasks =
      emptyDB.tasks ++ [{ id := emptyDB.nextTaskId, userId := 3,
                          cost := (some (5 : JsNum)).getD 0, answersLeft := 4 }] :=
  ⟨by decide, ((c6_amended emptyDB 3 (some 5) (some 2) (some (-1)) 4).2.2 (by decide)).2.1⟩

/-- Claim C5 counterexample: with one change-log entry at time 5 and no
entry newer than T = 10, the handler answers `lastUpdated = 0`, not the
input T unchanged; feeding that 0 back re-delivers the old entry, so the
claimed polling loop is not idempotent. -/
theorem c5_counterexample :
    taskSync [⟨1, .created, 5⟩] 10 = ⟨0, []⟩ ∧
    (taskSync [⟨1, .created, 5⟩] 10).lastUpdated ≠ 10 ∧
    taskSync [⟨1, .created, 5⟩] ((taskSync [⟨1, .created, 5⟩] 10).lastUpdated) =
      ⟨5, [(1, .created)]⟩ := by decide

/-- Claim C5 (amended): for a log whose creation times are in append order
(non-decreasing), sync returns exactly the entries strictly newer than T in
that order, with `lastUpdated` the creation time of the last entry
returned; when no entry is newer it answers `{lastUpdated := 0, changes := []}`
(0, not the input T). -/
theorem c5_amended (log : List ChangeLogEntry) (T : Nat)
    (hsort : log.Pairwise (fun a b => a.createdAt ≤ b.createdAt)) :
    (taskSync log T).changes = (entriesSince log T).map (fun e => (e.taskId, e.status)) ∧
    (∀ e ∈ log, (T < e.createdAt ↔ e ∈ entriesSince log T)) ∧
    (∀ e ∈ entriesSince log T, T < e.createdAt) ∧
    (entriesSince log T).Pairwise (fun a b => a.createdAt ≤ b.createdAt) ∧
    (∀ h2 : entriesSince log T ≠ [],
      (taskSync log T).lastUpdated = ((entriesSince log T).getLast h2).createdAt) ∧
    (entriesSince log T = [] → taskSync log T = ⟨0, []⟩) := by
  refine ⟨?_, ?_, ?_, ?_, ?_, ?_⟩
  · rcases h : entriesSince log T with _ | ⟨a, l⟩ <;> simp [taskSync, h]
  · intro e he
    constructor
    · intro hT
      exact List.mem_filter.mpr ⟨he, by simpa using hT⟩
    · intro hmem
      have := (List.mem_filter.mp hmem).2
      simpa using this
  · intro e he
    have := (List.mem_filter.mp he).2
    simpa using this
  · exact List.Pairwise.sublist (List.filter_sublist log) hsort
  · intro h2
    have hlen : (entriesSince log T).length > 0 := List.length_pos.mpr h2
    simp [taskSync, hlen, List.getLast?_eq_getLast _ h2]
  · intro h2
    simp [taskSync, h2]

theorem c5_amended_witness :
    ([⟨1, ChangeStatus.created, 5⟩] : List ChangeLogEntry).Pairwise
        (fun a b => a.createdAt ≤ b.createdAt) ∧
    (taskSync [⟨1, ChangeStatus.created, 5⟩] 3).changes =
      (entriesSince [⟨1, ChangeStatus.created, 5⟩] 3).map (fun e => (e.taskId, e.status)) :=
  ⟨List.pairwise_singleton _ _, (c5_amended [⟨1, .created, 5⟩] 3 (List.pairwise_singleton _ _)).1⟩

/-- Claim C7 counterexample: deleting a task id that does not exist still
appends a `DELETED` change-log entry (the change-log insert at the
`.then(createChangeLogPromise(...))` call site is issued unconditionally),
contradicting "no change-log entry is produced". -/
theorem c7_counterexample :
    getTask c7DB 42 = none ∧
    c7DB.changeLog = [] ∧
    (taskDelete c7DB 42).changeLog = [⟨42, .deleted, 3⟩] := by decide

/-- Claim C7 (amended): deleting a non-existent task reports success and
leaves the Task table untouched, but a `DELETED` change-log entry for the
requested id is appended all the same. -/
theorem c7_amended (db : DB) (tid : Nat) (h : getTask db tid = none) :
    (taskDelete db tid).tasks = db.tasks ∧
    (taskDelete db tid).changeLog = db.changeLog ++ [⟨tid, .deleted, db.now⟩] := by
  constructor
  · rw [taskDelete_tasks]
    apply List.filter_eq_self.mpr
    intro t ht
    have := List.find?_eq_none.mp h t ht
    simpa using this
  · exact taskDelete_changeLog db tid

theorem c7_amended_witness :
    getTask c7DB 42 = none ∧ (taskDelete c7DB 42).tasks = c7DB.tasks :=
  ⟨by decide, (c7_amended c7DB 42 (by decide)).1⟩

/-- Claim C8 counterexample: responding to a task id that does not exist
does not produce a NotFound failure — `findOne` resolves to `null` and the
handler's `task.answersLeft` dereference raises a `TypeError` whose
rejection nothing handles (`RResult.jsError`): no response of any kind is
sent.  No state is mutated. -/
theorem c8_counterexample :
    (respondToTask c8DB 1 99 false).1.result = some .jsError ∧
    (respondToTask c8DB 1 99 false).2.responses = [] ∧
    (respondToTask c8DB 1 99 false).2.changeLog = [] ∧
    (respondToTask c8DB 1 99 false).2.balances 1 = 9 := by decide

/-- Claim C8 (amended): responding to a non-existent task crashes with an
unhandled `TypeError` before any mutation — the store is fully unchanged —
but no NotFound error is returned (no response is sent at all). -/
theorem c8_amended (db : DB) (u tid : Nat) (fl : Bool)
    (h : getTask db tid = none) :
    (respondToTask db u tid fl).1.result = some .jsError ∧
    (respondToTask db u tid fl).2 = db :=
  respond_no_task h

theorem c8_amended_witness :
    getTask c8DB 99 = none ∧ (respondToTask c8DB 99 99 false).1.result = some .jsError :=
  ⟨by decide, (c8_amended c8DB 99 99 false (by decide)).1⟩

/-- Claim C9: refuted on the delete path.  `[append, destroy]` is an order
the handler admits (the change-log insert starts at call time, unawaited),
and after the append commits — destroy not yet committed — the `DELETED`
entry is visible to sync while the task aggregate still exists. -/
theorem c9_deleted_visible_before_destroy :
    [DelAct.append, DelAct.destroy] ∈ deleteSchedules ∧
    (delAct 1 .append c9DB).changeLog = [⟨1, .deleted, 1⟩] ∧
    getTask (delAct 1 .append c9DB) 1 = some ⟨1, 0, 5, 2⟩ ∧
    (taskSync (delAct 1 .append c9DB).changeLog 0).changes = [(1, .deleted)] := by decide

/-- Claim C2: refuted.  When the TaskResponse insert fails, the handler has
already issued the two balance writes and the counter decrement and rolls
nothing back: the error response coexists with a debited owner (100 → 95),
a credited responder (10 → 15), a decremented counter (1 → 0), and no
TaskResponse row or change-log entry. -/
theorem c2_no_rollback_on_failure :
    (respondToTask c2DB 1 1 true).1.result = some .storageError ∧
    (respondToTask c2DB 1 1 true).2.balances 0 = 95 ∧
    (respondToTask c2DB 1 1 true).2.balances 1 = 15 ∧
    getTask (respondToTask c2DB 1 1 true).2 1 = some ⟨1, 0, 5, 0⟩ ∧
    (respondToTask c2DB 1 1 true).2.responses = [] ∧
    (respondToTask c2DB 1 1 true).2.changeLog = [] := by decide

/-- Claim C1: refuted.  Under `c1Schedule` both requests respond `ok`
(balances 15 and 25), two TaskResponse rows exist, and the owner is
debited only once (100 → 95, a lost update) — not "exactly one succeeds
and the other fails with TaskExhausted, with exactly one transfer and one
TaskResponse".  (The final counter is 0 only because both writes store the
same stale `1 - 1`.) -/
theorem c1_both_succeed :
    (runRespond2 c1Schedule (initThread 1 1 false) (initThread 2 1 false) c1DB).1.result =
      some (.ok 15) ∧
    (runRespond2 c1Schedule (initThread 1 1 false) (initThread 2 1 false) c1DB).2.1.result =
      some (.ok 25) ∧
    (runRespond2 c1Schedule (initThread 1 1 false) (initThread 2 1 false) c1DB).2.2.responses =
      [⟨1, 1⟩, ⟨2, 1⟩] ∧
    getTask (runRespond2 c1Schedule (initThread 1 1 false) (initThread 2 1 false) c1DB).2.2 1 =
      some ⟨1, 0, 5, 0⟩ ∧
    (runRespond2 c1Schedule (initThread 1 1 false) (initThread 2 1 false) c1DB).2.2.balances 0 =
      95 := by decide

/-- Claim C4 counterexample, refuting both halves of the claim.
Atomicity: with a failing TaskResponse insert the transfer has happened
(50 → 43, 8 → 15) while no TaskResponse row exists, so "either both
happen or neither" is false.  Conservation: when the owner (user 2,
balance 50) responds to their own task, `user.update` writes the
middleware snapshot `50 + 7` over the `task.user.update` debit `50 - 7`
on the same row, so the owner's balance *increases* by the cost (50 → 57)
and total money is not conserved — the claim's "owner's balance decreases
by exactly c" fails on a successful respond. -/
theorem c4_counterexample :
    (respondToTask c4DB 5 3 true).1.result = some .storageError ∧
    (respondToTask c4DB 5 3 true).2.balances 2 = 43 ∧
    (respondToTask c4DB 5 3 true).2.balances 5 = 15 ∧
    (respondToTask c4DB 5 3 true).2.responses = [] ∧
    (respondToTask c4DB 2 3 false).1.result = some (.ok 57) ∧
    (respondToTask c4DB 2 3 false).2.balances 2 = 57 ∧
    (respondToTask c4DB 2 3 false).2.responses = [⟨2, 3⟩] := by decide

/-- Claim C4 (amended): for every sequentially-executed, fully successful
respond, the TaskResponse row is appended and the responder's new balance
is returned; when the owner differs from the responder the owner's balance
decreases by exactly the task's cost, the responder's increases by exactly
the cost, and all other balances are unchanged — but when the responder
*is* the owner, the credit (written from the middleware snapshot) overwrites
the debit on the same row, so that balance increases by the cost and money
is created.  In neither case is the transfer atomic with the TaskResponse
persistence: it precedes the insert and survives its failure. -/
theorem c4_amended (db : DB) (u tid : Nat) (t : Task)
    (h : getTask db tid = some t) (h0 : t.answersLeft ≠ 0) :
    (respondToTask db u tid false).1.result = some (.ok (db.balances u + t.cost)) ∧
    (respondToTask db u tid false).2.responses = db.responses ++ [⟨u, tid⟩] ∧
    (t.userId ≠ u →
      (respondToTask db u tid false).2.balances t.userId = db.balances t.userId - t.cost ∧
      (respondToTask db u tid false).2.balances u = db.balances u + t.cost ∧
      (∀ x, x ≠ u → x ≠ t.userId →
        (respondToTask db u tid false).2.balances x = db.balances x)) ∧
    (t.userId = u →
      (respondToTask db u tid false).2.balances u = db.balances u + t.cost ∧
      (∀ x, x ≠ u →
        (respondToTask db u tid false).2.balances x = db.balances x)) := by
  obtain ⟨hres, hbal, htasks, hresp, hlog⟩ := respond_ok h h0
  refine ⟨hres, hresp, ?_, ?_⟩
  · intro hne
    refine ⟨?_, ?_, ?_⟩
    · rw [hbal t.userId]
      simp [hne]
    · rw [hbal u]
      simp
    · intro x hxu hxo
      rw [hbal x]
      simp [hxu, hxo]
  · intro heq
    refine ⟨?_, ?_⟩
    · rw [hbal u]
      simp
    · intro x hxu
      rw [hbal x]
      simp [hxu, heq]

theorem c4_amended_witness :
    getTask c4DB 3 = some ⟨3, 2, 7, 4⟩ ∧
    (respondToTask c4DB 5 3 false).2.balances 2 = c4DB.balances 2 - 7 :=
  ⟨by decide,
    ((c4_amended c4DB 5 3 ⟨3, 2, 7, 4⟩ (by decide) (by decide)).2.2.1 (by decide)).1⟩

/-- Sequential requests preserve non-negative counters when creates supply
non-negative initial counters. -/
theorem applyOps_nonneg {db : DB} {ops : List Op} (hwf : ops.all wfOp = true)
    (hinv : NonnegAnswers db) : NonnegAnswers (applyOps db ops) := by
  induction ops generalizing db with
  | nil => exact hinv
  | cons op rest ih =>
    simp only [List.all_cons, Bool.and_eq_true] at hwf
    exact ih hwf.2 (applyOp_nonneg hwf.1 hinv)

theorem applyOps_take_succ (ops : List Op) (i : Nat) (db : DB) :
    applyOps db (ops.take (i + 1)) =
      (match ops[i]? with
       | some op => applyOp (applyOps db (ops.take i)) op
       | none => applyOps db (ops.take i)) := by
  rw [List.take_succ]
  cases h : ops[i]? with
  | none => simp [applyOps, h]
  | some op => simp [applyOps, h, List.foldl_append]

/-- Claim C3 counterexample: the create handler never validates
`answersLeft`; a task created with `answersLeft = -1` exists with a
negative counter from the start, refuting "answersLeft is always ≥ 0". -/
theorem c3_counterexample :
    (taskAdd emptyDB 0 (some 5) (some 1) (some 1) (-1)).1 = .ok 0 ∧
    getTask (taskAdd emptyDB 0 (some 5) (some 1) (some 1) (-1)).2 0 =
      some ⟨0, 0, 5, -1⟩ := by decide

/-- Claim C3 (amended): over every sequence of sequentially-executed
requests from the empty store in which each create supplies a
non-negative `answersLeft`: every task's counter stays ≥ 0, no single
request increases the counter of a task existing before and after it, and
a task whose counter is exactly 0 rejects every new respond ("Task is
already completed.") with the store unchanged while remaining fetchable. -/
theorem c3_amended (ops : List Op) (hwf : ops.all wfOp = true) :
    NonnegAnswers (applyOps emptyDB ops) ∧
    (∀ (i tid : Nat) (t t' : Task),
      getTask (applyOps emptyDB (ops.take i)) tid = some t →
      getTask (applyOps emptyDB (ops.take (i + 1))) tid = some t' →
      t'.answersLeft ≤ t.answersLeft) ∧
    (∀ (u tid : Nat) (fl : Bool) (t : Task),
      getTask (applyOps emptyDB ops) tid = some t → t.answersLeft = 0 →
      (respondToTask (applyOps emptyDB ops) u tid fl).1.result = some .taskCompleted ∧
      (respondToTask (applyOps emptyDB ops) u tid fl).2 = applyOps emptyDB ops ∧
      t ∈ taskFetch (applyOps emptyDB ops).tasks (some (some [tid]))) := by
  refine ⟨?_, ?_, ?_⟩
  · exact applyOps_nonneg hwf (fun t ht => absurd ht (List.not_mem_nil t))
  · intro i tid t t' h h'
    rw [applyOps_take_succ] at h'
    cases hop : ops[i]? with
    | none =>
      rw [hop] at h'
      simp only at h'
      rw [h] at h'
      cases h'
      exact le_refl _
    | some op =>
      rw [hop] at h'
      simp only at h'
      exact applyOp_answersLeft_mono h h'
  · intro u tid fl t h h0
    refine ⟨(respond_exhausted h h0).1, (respond_exhausted h h0).2, ?_⟩
    have hmem : t ∈ (applyOps emptyDB ops).tasks := List.mem_of_find?_eq_some h
    have hid : t.id = tid := by
      have := List.find?_some h
      simpa using this
    unfold taskFetch
    refine List.mem_filter.mpr ⟨hmem, ?_⟩
    simp [fetchParamIds, hid]

theorem c3_amended_witness :
    c3Ops.all wfOp = true ∧ NonnegAnswers (applyOps emptyDB c3Ops) :=
  ⟨by decide, (c3_amended c3Ops (by decide)).1⟩

end GeofenceServer
